import Mathlib

/-!
Shallow embedding of the sbomsaas gateway-provisioning core:
the token codec (`src/auth/auth_utils.py`), the gateway admin client
(`kong_admin_api.py`), the email-to-identifier derivation (`kong_utils.py`),
and the consumer provisioning workflow (`src/app/app.py`).
Signatures are modelled symbolically: a well-formed signed token records the
payload and the secret used to sign it, so signature verification is equality
of secrets; malformed token strings are a separate constructor.
-/

set_option autoImplicit false

namespace SbomSaas

/-! ## Token codec (src/auth/auth_utils.py) -/

/-- The JWT payload built by `generate_jwt_token`: keys `user_id`, `email`,
`name`, `picture` (each possibly absent, `dict.get` style), plus the numeric
registered claims `exp` and `iat` (seconds since epoch). -/
structure JWTPayload where
  user_id : Option String
  email : Option String
  name : Option String
  picture : Option String
  exp : Int
  iat : Int
  deriving DecidableEq, Repr

/-- Symbolic model of an encoded JWT string: either a structurally well-formed
token whose signature was produced with `secret`, or a malformed string. -/
inductive JWTToken where
  | signed (payload : JWTPayload) (secret : String)
  | malformed (raw : String)
  deriving DecidableEq, Repr

/-- The two PyJWT exception classes the code catches
(`jwt.ExpiredSignatureError` is also an `InvalidTokenError`, so these cover
every decode failure). -/
inductive JwtDecodeError where
  | expiredSignature
  | invalidToken
  deriving DecidableEq, Repr

/-- The configuration values the codec reads: `JWT_SECRET_KEY` and
`JWT_EXPIRATION_HOURS` (24 in `src/config/config.py`). -/
structure JWTConfig where
  jwt_secret_key : String
  jwt_expiration_hours : Int
  deriving DecidableEq, Repr

/-- The identity dict passed to `generate_jwt_token` (`user_data.get('sub')`
etc., so every key may be absent). -/
structure UserData where
  sub : Option String
  email : Option String
  name : Option String
  picture : Option String
  deriving DecidableEq, Repr

/-- `jwt.decode(token, secret, algorithms=[...])`: the signature is checked
first (mismatch or a malformed string raises `InvalidTokenError`), then the
`exp` claim is validated against the current time with zero leeway. -/
def jwt_decode (t : JWTToken) (secret : String) (now : Int) :
    Except JwtDecodeError JWTPayload :=
  match t with
  | .malformed _ => .error .invalidToken
  | .signed p s =>
      if s = secret then
        if p.exp ≤ now then .error .expiredSignature else .ok p
      else .error .invalidToken

/-- `generate_jwt_token(user_data)`: builds the payload with
`user_id = user_data.get('sub')`, `exp = now + JWT_EXPIRATION_HOURS` and
`iat = now`, then signs with `JWT_SECRET_KEY` (hours converted to seconds). -/
def generate_jwt_token (user_data : UserData) (cfg : JWTConfig) (now : Int) :
    JWTToken :=
  .signed
    { user_id := user_data.sub
      email := user_data.email
      name := user_data.name
      picture := user_data.picture
      exp := now + cfg.jwt_expiration_hours * 3600
      iat := now }
    cfg.jwt_secret_key

/-- `verify_jwt_token(token)`: decodes and returns the payload, catching
`ExpiredSignatureError` and `InvalidTokenError` into `None`. -/
def verify_jwt_token (t : JWTToken) (cfg : JWTConfig) (now : Int) :
    Option JWTPayload :=
  match jwt_decode t cfg.jwt_secret_key now with
  | .ok p => some p
  | .error .expiredSignature => none
  | .error .invalidToken => none

/-! ## Identifier derivation (kong_utils.py, duplicated inline in
src/app/app.py) -/

/-- Python `s.split(sep)[0]` for a single-character separator: everything
before the first occurrence of `sep` (the whole string when absent). -/
def pyStrSplitHead (s : String) (sep : Char) : String :=
  String.mk (s.data.takeWhile (fun c => c ≠ sep))

/-- Python `s.replace(old, new)` for single-character arguments. -/
def pyStrReplaceChar (s : String) (old new : Char) : String :=
  String.mk (s.data.map (fun c => if c = old then new else c))

/-- `email_to_kong_username(email)` =
`email.split('@')[0].replace('.', '_').replace('+', '_')`; the expression at
`create_or_get_kong_consumer` (app.py line 193) is character-for-character the
same. -/
def email_to_kong_username (email : String) : String :=
  pyStrReplaceChar (pyStrReplaceChar (pyStrSplitHead email '@') '.' '_') '+' '_'

/-- The derivation as the spec words it (§4.3): LOWER-CASED local-part with
`.` and `+` replaced by `_`. Written from the spec's words, to be compared
with the source's `email_to_kong_username`. -/
def email_to_kong_username_specLower (email : String) : String :=
  String.mk
    (((email.data.takeWhile (fun c => c ≠ '@')).map Char.toLower).map
      (fun c => if c = '.' ∨ c = '+' then '_' else c))

/-- The derivation as the spec words it minus the lower-casing: local-part of
the email, case preserved, with `.` and `+` replaced by `_` in one pass. -/
def localPartUnderscored (email : String) : String :=
  String.mk
    ((email.data.takeWhile (fun c => c ≠ '@')).map
      (fun c => if c = '.' ∨ c = '+' then '_' else c))

/-! ## Gateway Admin Client (kong_admin_api.py) -/

/-- `KongAdminAPIError(message, status_code, response_data)`; `response_data`
defaults to `{}` when `None` is passed. Response dicts are modelled as
string-keyed association lists. -/
structure KongAdminAPIError where
  message : String
  status_code : Nat
  response_data : List (String × String)
  deriving DecidableEq, Repr

/-- The body of the HTTP response that `session.request` produced: either
`response.json()` succeeds with a dict, or it raises `ValueError` and the raw
`response.text` is used instead. -/
inductive RespBody where
  | jsonBody (fields : List (String × String))
  | textBody (text : String)
  deriving DecidableEq, Repr

/-- What the transport layer did for one `session.request` call (retries on
502/503/504 happen inside `session.request`, below this level): either a
response with a status code arrived, or a `requests.exceptions.RequestException`
was raised. -/
inductive TransportOutcome where
  | httpResponse (status : Nat) (body : RespBody)
  | reqException (msg : String)
  deriving DecidableEq, Repr

/-- The `try: response.json() except ValueError:` normalisation in
`_make_request`: a non-JSON body becomes `{"message": response.text or
"Empty response"}` (Python: the empty string is falsy). -/
def parseRespBody : RespBody → List (String × String)
  | .jsonBody fields => fields
  | .textBody text => [("message", if text = "" then "Empty response" else text)]

/-- Whether `needle` occurs as a contiguous run inside `hay`
(Python `needle in hay`). -/
def charsStartWith : List Char → List Char → Bool
  | _, [] => true
  | [], _ :: _ => false
  | a :: as, b :: bs => a = b && charsStartWith as bs

/-- Python `needle in hay` on strings. -/
def pyInStr (needle hay : String) : Bool :=
  go hay.data
where
  go : List Char → Bool
  | [] => needle.data.isEmpty
  | l@(_ :: t) => charsStartWith l needle.data || go t

/-- `_extract_error_message(response_json, status_code)`: reads
`response_json.get('message', f'HTTP {status} error')` and enriches it by the
status-specific heuristics of the source. -/
def extract_error_message (response_json : List (String × String))
    (status_code : Nat) : String :=
  let message :=
    (response_json.lookup "message").getD ("HTTP " ++ toString status_code ++ " error")
  if status_code = 400 then
    if pyInStr "required" message.toLower then "Missing required field: " ++ message
    else if pyInStr "invalid" message.toLower then "Invalid data provided: " ++ message
    else "Bad request: " ++ message
  else if status_code = 404 then "Resource not found: " ++ message
  else if status_code = 409 then
    if pyInStr "UNIQUE violation" message then "Duplicate resource: " ++ message
    else "Conflict: " ++ message
  else message

/-- `KongAdminAPI._make_request`: parses the body, raises `KongAdminAPIError`
for status 400/404/409 (that raise escapes the `except RequestException`
clause, which does not catch it), converts a transport exception into the
typed error with `status_code = 0` and `response_data = {"original_error":
str(e)}`, and returns `(response_json, status_code)` for every other
status. -/
def make_request (outcome : TransportOutcome) :
    Except KongAdminAPIError (List (String × String) × Nat) :=
  match outcome with
  | .httpResponse status body =>
      let response_json := parseRespBody body
      if status ∈ [400, 404, 409] then
        .error
          { message := extract_error_message response_json status
            status_code := status
            response_data := response_json }
      else .ok (response_json, status)
  | .reqException msg =>
      .error
        { message := "Request failed: " ++ msg
          status_code := 0
          response_data := [("original_error", msg)] }

/-- `KongAdminAPI.get_consumer(username_or_id)` = `_make_request('GET',
f'/consumers/{username_or_id}')`; parameterised by the transport outcome of
that one request. -/
def get_consumer (outcome : TransportOutcome) :
    Except KongAdminAPIError (List (String × String) × Nat) :=
  make_request outcome

/-- `KongAdminAPI.consumer_exists(username_or_id)`: `True` iff
`get_consumer` returned status 200; a `KongAdminAPIError` with
`status_code == 404` becomes `False`; every other typed error is re-raised
unchanged. -/
def consumer_exists (outcome : TransportOutcome) :
    Except KongAdminAPIError Bool :=
  match get_consumer outcome with
  | .ok (_, status) => .ok (status == 200)
  | .error e => if e.status_code = 404 then .ok false else .error e

/-! ## create_consumer and its local validation -/

/-- Python truthiness of an optional string (`if not username and not
custom_id`): `None` and `''` are falsy. -/
def pyTruthyStr : Option String → Bool
  | none => false
  | some s => s != ""

/-- Python truthiness of an optional list (`if tags:`). -/
def pyTruthyList : Option (List String) → Bool
  | none => false
  | some l => !l.isEmpty

/-- A payload entry of the `create_consumer` request body. -/
inductive PField where
  | str (key value : String)
  | strList (key : String) (value : List String)
  deriving DecidableEq, Repr

/-- One HTTP request issued to the gateway, as logged at the
`_make_request` boundary. -/
structure ReqLog where
  method : String
  endpoint : String
  payload : List PField
  deriving DecidableEq, Repr

/-- The Python exceptions that can cross function boundaries in this
codebase: the typed gateway error, `ValueError`, `KeyError` (dict subscript
on a missing key), and anything else. -/
inductive PyExc where
  | kong (e : KongAdminAPIError)
  | valueErr (msg : String)
  | keyErr (key : String)
  | otherExc (msg : String)
  deriving DecidableEq, Repr

/-- `KongAdminAPI.create_consumer(username, custom_id, tags)`: raises a plain
`ValueError` when both `username` and `custom_id` are falsy, BEFORE any HTTP
request; otherwise builds the payload from the truthy fields and POSTs
`/consumers`. Returns the result paired with the list of HTTP requests
actually issued. -/
def create_consumer (username custom_id : Option String)
    (tags : Option (List String)) (outcome : TransportOutcome) :
    Except PyExc (List (String × String) × Nat) × List ReqLog :=
  if !pyTruthyStr username && !pyTruthyStr custom_id then
    (.error (.valueErr "Either username or custom_id must be provided"), [])
  else
    let payload :=
      (if pyTruthyStr username then [PField.str "username" (username.getD "")] else []) ++
      (if pyTruthyStr custom_id then [PField.str "custom_id" (custom_id.getD "")] else []) ++
      (if pyTruthyList tags then [PField.strList "tags" (tags.getD [])] else [])
    match make_request outcome with
    | .ok r => (.ok r, [⟨"POST", "/consumers", payload⟩])
    | .error e => (.error (.kong e), [⟨"POST", "/consumers", payload⟩])

/-! ## Retry policy (KongAdminAPI.__init__, kong_admin_api.py lines 50-61) -/

/-- `Retry(total=3, ...)`. -/
def kongRetryTotal : Nat := 3

/-- `status_forcelist=[502, 503, 504]`. -/
def kongStatusForcelist : List Nat := [502, 503, 504]

/-- `allowed_methods=["HEAD", "GET", "PUT", "DELETE", "OPTIONS", "TRACE",
"POST"]`. -/
def kongAllowedMethods : List String :=
  ["HEAD", "GET", "PUT", "DELETE", "OPTIONS", "TRACE", "POST"]

/-- `backoff_factor=1`. -/
def kongBackoffFactor : Nat := 1

/-- Seconds slept before retry number `k + 1`, following the doubling
schedule the source configures and documents ("Wait 1, 2, 4 seconds between
retries"): `backoff_factor * 2 ^ k`. -/
def kongBackoffDelay (k : Nat) : Nat := kongBackoffFactor * 2 ^ k

/-- A response status triggers a retry iff it is in the forcelist. -/
def statusForcesRetry (status : Nat) : Bool := decide (status ∈ kongStatusForcelist)

/-- A method is eligible for status-based retries iff it is in
`allowed_methods`. -/
def methodRetryAllowed (m : String) : Bool := decide (m ∈ kongAllowedMethods)

/-- Number of retries performed for one `session.request` call, given the
status the upstream would return on each successive attempt (`responses i`
is the status of attempt `i`, 0-based): retry while the status forces a
retry, the method allows it, and the retry budget (fuel) is not exhausted. -/
def retryCountAux (method : String) (responses : Nat → Nat) :
    Nat → Nat → Nat
  | 0, _ => 0
  | fuel + 1, i =>
      if methodRetryAllowed method && statusForcesRetry (responses i) then
        retryCountAux method responses fuel (i + 1) + 1
      else 0

/-- Retries performed, starting with budget `kongRetryTotal`. -/
def retryCount (method : String) (responses : Nat → Nat) : Nat :=
  retryCountAux method responses kongRetryTotal 0

/-- The backoff delays slept, in order, during one `session.request` call. -/
def retryDelays (method : String) (responses : Nat → Nat) : List Nat :=
  (List.range (retryCount method responses)).map kongBackoffDelay

/-! ## Consumer provisioning workflow (src/app/app.py lines 181-241) -/

/-- The JSON body of a gateway consumer/key response as the workflow reads it:
only the `'id'` subscript is accessed, and a missing key raises `KeyError`. -/
structure ConsumerBody where
  id : Option String
  deriving DecidableEq, Repr

/-- The gateway as seen by the workflow: each client call either returns a
`(body, status)` pair or raises, and may advance an abstract gateway state
`σ`. Quantifying over all environments covers every combination of gateway
responses, typed errors, and unexpected exceptions. -/
structure KongEnv (σ : Type) where
  get_consumer : String → σ → Except PyExc (ConsumerBody × Nat) × σ
  create_consumer :
    Option String → Option String → Option (List String) → σ →
      Except PyExc (ConsumerBody × Nat) × σ
  create_consumer_key : String → σ → Except PyExc (ConsumerBody × Nat) × σ

/-- One client call made by the workflow, in order. -/
inductive KCall where
  | getC (username_or_id : String)
  | createC (username custom_id : Option String) (tags : Option (List String))
  | createKey (username_or_id : String)
  deriving DecidableEq, Repr

/-- The `except KongAdminAPIError as e:` handler of the inner `try` in
`create_or_get_kong_consumer` (app.py lines 205-236): on 404 create the
consumer with `username=user_email`, `custom_id=<sanitized>`,
`tags=["free"]`; on 201 best-effort create a key (only `KongAdminAPIError`
is caught there); any non-404 typed error yields `None`. An exception raised
inside this handler escapes to the OUTER `try` (`.error` here). -/
def cogkcInner {σ : Type} (env : KongEnv σ) (user_email sanitized : String)
    (e : KongAdminAPIError) (s : σ) (tr : List KCall) :
    Except PyExc (Option String) × σ × List KCall :=
  if e.status_code = 404 then
    match env.create_consumer (some user_email) (some sanitized)
        (some ["free"]) s with
    | (.ok (body, status), s2) =>
        let tr2 := tr ++ [.createC (some user_email) (some sanitized) (some ["free"])]
        if status = 201 then
          match body.id with
          | some kong_consumer_id =>
              match env.create_consumer_key user_email s2 with
              | (.ok _, s3) => (.ok (some kong_consumer_id), s3, tr2 ++ [.createKey user_email])
              | (.error (.kong _), s3) =>
                  (.ok (some kong_consumer_id), s3, tr2 ++ [.createKey user_email])
              | (.error exc, s3) => (.error exc, s3, tr2 ++ [.createKey user_email])
          | none => (.error (.keyErr "id"), s2, tr2)
        else (.ok none, s2, tr2)
    | (.error exc, s2) =>
        (.error exc, s2, tr ++ [.createC (some user_email) (some sanitized) (some ["free"])])
  else (.ok none, s, tr)

/-- The body of the outer `try` of `create_or_get_kong_consumer`: derive the
sanitized identifier, look the consumer up by email; on `(body, 200)` return
`body['id']`; on any other `ok` status raise `KongAdminAPIError("Unexpected
status", status)` into the inner handler; a raised `KongAdminAPIError` goes
to the inner handler; any other exception escapes (to the outer handler). -/
def cogkcBody {σ : Type} (env : KongEnv σ) (user_email : String) (s0 : σ) :
    Except PyExc (Option String) × σ × List KCall :=
  let sanitized := email_to_kong_username user_email
  match env.get_consumer user_email s0 with
  | (.ok (body, status), s1) =>
      if status = 200 then
        match body.id with
        | some cid => (.ok (some cid), s1, [.getC user_email])
        | none => (.error (.keyErr "id"), s1, [.getC user_email])
      else
        cogkcInner env user_email sanitized
          ⟨"Unexpected status", status, []⟩ s1 [.getC user_email]
  | (.error (.kong e), s1) => cogkcInner env user_email sanitized e s1 [.getC user_email]
  | (.error exc, s1) => (.error exc, s1, [.getC user_email])

/-- `create_or_get_kong_consumer(user_email)`: the outer
`except Exception` converts every escaping exception into a logged error and
a `None` result, so the returned `Except` is always `.ok`. -/
def create_or_get_kong_consumer {σ : Type} (env : KongEnv σ)
    (user_email : String) (s0 : σ) :
    Except PyExc (Option String) × σ × List KCall :=
  match cogkcBody env user_email s0 with
  | (.ok r, s, tr) => (.ok r, s, tr)
  | (.error _, s, tr) => (.ok none, s, tr)

/-- The HTTP response the OAuth callback builds after the identity provider
steps succeeded (app.py lines 109-136): the session cookie and the redirect. -/
structure CallbackResponse where
  cookie_name : String
  cookie_token : JWTToken
  httponly : Bool
  secure : Bool
  samesite : String
  max_age : Nat
  redirect_to : String
  status : Nat
  deriving DecidableEq, Repr

/-- The verified identity obtained from the provider's user-info endpoint
(`user_info['id']`, `['email']`, `['name']`, `.get('picture')`). -/
structure UserInfo where
  id : String
  email : String
  name : String
  picture : Option String
  deriving DecidableEq, Repr

/-- The tail of the `callback` handler, from the
`create_or_get_kong_consumer` call onwards: provision the gateway consumer
(result unused by the response), mint the JWT, set the `auth_token` cookie
and redirect to the dashboard. `env_name` is Flask's `ENV` config value. -/
def callback_after_identity {σ : Type} (env : KongEnv σ) (s : σ)
    (user_info : UserInfo) (cfg : JWTConfig) (env_name : String) (now : Int) :
    Except PyExc CallbackResponse × σ :=
  match create_or_get_kong_consumer env user_info.email s with
  | (.ok _kong_consumer_id, s1, _) =>
      let user_data : UserData :=
        { sub := some user_info.id
          email := some user_info.email
          name := some user_info.name
          picture := user_info.picture }
      (.ok
        { cookie_name := "auth_token"
          cookie_token := generate_jwt_token user_data cfg now
          httponly := true
          secure := env_name = "production"
          samesite := "Lax"
          max_age := 24 * 60 * 60
          redirect_to := "/dashboard"
          status := 302 }, s1)
  | (.error exc, s1, _) => (.error exc, s1)

/-! ## Gateway state model (for the two-run idempotence property) -/

/-- Modelled from the spec: the gateway collaborator's own behaviour
(spec §4.2 operation table and §8 "idempotent convergence") is not part of
this repository; this is the minimal state machine it promises — consumers
keyed by unique `username`, `getConsumer` 200 iff present else 404,
`createConsumer` 201 registering a fresh id (409 on duplicate),
`createConsumerKey` 201 iff the consumer exists else 404. -/
structure GState where
  consumers : List (String × String)
  nextId : Nat
  deriving DecidableEq, Repr

/-- Gateway `GET /consumers/{u}` per the spec's contract. -/
def gwGet (u : String) (s : GState) : Except PyExc (ConsumerBody × Nat) × GState :=
  match s.consumers.lookup u with
  | some cid => (.ok (⟨some cid⟩, 200), s)
  | none => (.error (.kong ⟨"Resource not found: Not found", 404, []⟩), s)

/-- Gateway `POST /consumers` per the spec's contract. -/
def gwCreate (username _custom_id : Option String) (_tags : Option (List String))
    (s : GState) : Except PyExc (ConsumerBody × Nat) × GState :=
  match username with
  | some u =>
      match s.consumers.lookup u with
      | some _ => (.error (.kong ⟨"Duplicate resource: UNIQUE violation", 409, []⟩), s)
      | none =>
          let cid := "c_" ++ toString s.nextId
          (.ok (⟨some cid⟩, 201), ⟨(u, cid) :: s.consumers, s.nextId + 1⟩)
  | none =>
      let cid := "c_" ++ toString s.nextId
      (.ok (⟨some cid⟩, 201), ⟨s.consumers, s.nextId + 1⟩)

/-- Gateway `POST /consumers/{u}/key-auth` per the spec's contract. -/
def gwCreateKey (u : String) (s : GState) :
    Except PyExc (ConsumerBody × Nat) × GState :=
  match s.consumers.lookup u with
  | some _ => (.ok (⟨some ("k_" ++ toString s.nextId)⟩, 201), s)
  | none => (.error (.kong ⟨"Resource not found: Not found", 404, []⟩), s)

/-- The spec-modelled gateway packaged as a workflow environment. -/
def kongGateway : KongEnv GState :=
  { get_consumer := gwGet
    create_consumer := gwCreate
    create_consumer_key := gwCreateKey }

/-- Number of `createConsumer` attempts in a call trace. -/
def countCreate (tr : List KCall) : Nat :=
  tr.countP fun c => match c with | .createC _ _ _ => true | _ => false

/-- A trivial single-state environment whose lookup always answers 200 with
id `c_1`; used to instantiate universally quantified workflow lemmas. -/
def constFoundEnv : KongEnv Unit :=
  { get_consumer := fun _ s => (.ok (⟨some "c_1"⟩, 200), s)
    create_consumer := fun _ _ _ s => (.ok (⟨some "c_1"⟩, 201), s)
    create_consumer_key := fun _ s => (.ok (⟨some "c_1"⟩, 201), s) }

/-! ## Access gate (src/auth/auth_utils.py lines 35-69) -/

/-- The `Authorization` header value, abstracted over the token grammar:
either a well-formed `Bearer <token>` value, or any other string (including
the falsy empty string), for which `auth_header and
auth_header.startswith('Bearer ')` is false. -/
inductive AuthHeaderVal where
  | bearer (tok : JWTToken)
  | nonBearer (raw : String)
  deriving DecidableEq, Repr

/-- The parts of the inbound request the guards read. -/
structure WebRequest where
  cookie_auth_token : Option JWTToken
  authorization : Option AuthHeaderVal
  deriving DecidableEq, Repr

/-- Python truthiness of a token string (`if token:` in
`get_user_from_cookie`): only the empty string is falsy. -/
def pyTruthyTok : JWTToken → Bool
  | .malformed "" => false
  | _ => true

/-- `get_user_from_cookie()`: read `request.cookies.get('auth_token')` and
verify it when truthy. -/
def get_user_from_cookie (req : WebRequest) (cfg : JWTConfig) (now : Int) :
    Option JWTPayload :=
  match req.cookie_auth_token with
  | some token => if pyTruthyTok token then verify_jwt_token token cfg now else none
  | none => none

/-- `get_user_from_header()`: require a truthy header starting with
`'Bearer '`, then verify the token after the space. -/
def get_user_from_header (req : WebRequest) (cfg : JWTConfig) (now : Int) :
    Option JWTPayload :=
  match req.authorization with
  | some (.bearer token) => verify_jwt_token token cfg now
  | some (.nonBearer _) => none
  | none => none

/-- What a wrapped route produced: either the handler ran with the verified
claims as its first explicit argument, or the guard rejected with a JSON
response or a redirect. -/
inductive GuardResult (α : Type) where
  | handled (user : JWTPayload) (value : α)
  | jsonResponse (status : Nat) (body : List (String × String))
  | redirect (status : Nat) (location : String)
  deriving DecidableEq, Repr

/-- `login_required_cookie(f)`: no verified user means
`redirect(url_for('login'))` (HTTP 302, route `/login`); otherwise
`f(user, ...)`. -/
def login_required_cookie {α : Type} (f : JWTPayload → α) (req : WebRequest)
    (cfg : JWTConfig) (now : Int) : GuardResult α :=
  match get_user_from_cookie req cfg now with
  | some user => .handled user (f user)
  | none => .redirect 302 "/login"

/-- `login_required_api(f)`: no verified user means the 401 JSON body
`{'error': ..., 'message': ...}`; otherwise `f(user, ...)`. -/
def login_required_api {α : Type} (f : JWTPayload → α) (req : WebRequest)
    (cfg : JWTConfig) (now : Int) : GuardResult α :=
  match get_user_from_header req cfg now with
  | some user => .handled user (f user)
  | none =>
      .jsonResponse 401
        [("error", "Authentication required"),
         ("message", "Please provide a valid Bearer token")]

/-! ## Theorems -/

/-- How `verify_jwt_token` evaluates on a structurally well-formed token. -/
theorem verify_jwt_token_signed (p : JWTPayload) (s : String)
    (cfg : JWTConfig) (now : Int) :
    verify_jwt_token (.signed p s) cfg now =
      if s = cfg.jwt_secret_key then
        (if p.exp ≤ now then none else some p)
      else none := by
  by_cases hs : s = cfg.jwt_secret_key
  · by_cases he : p.exp ≤ now
    · simp [verify_jwt_token, jwt_decode, hs, he]
    · simp [verify_jwt_token, jwt_decode, hs, he]
  · simp [verify_jwt_token, jwt_decode, hs]

/-- How `verify_jwt_token` evaluates on a malformed token string. -/
theorem verify_jwt_token_malformed (r : String) (cfg : JWTConfig) (now : Int) :
    verify_jwt_token (.malformed r) cfg now = none := rfl

/-- C1: for every claims record, secret and timestamp, verifying the token
produced by issuing from that record succeeds and returns a payload whose
`email`, `name` and `user_id` equal the record's `email`, `name` and
`sub`. -/
theorem jwt_round_trip (u : UserData) (cfg : JWTConfig) (now : Int)
    (h : 0 < cfg.jwt_expiration_hours) :
    ∃ p, verify_jwt_token (generate_jwt_token u cfg now) cfg now = some p ∧
      p.email = u.email ∧ p.name = u.name ∧ p.user_id = u.sub := by
  refine ⟨{ user_id := u.sub, email := u.email, name := u.name,
            picture := u.picture,
            exp := now + cfg.jwt_expiration_hours * 3600, iat := now },
          ?_, rfl, rfl, rfl⟩
  unfold generate_jwt_token
  rw [verify_jwt_token_signed, if_pos rfl,
    if_neg (show ¬(now + cfg.jwt_expiration_hours * 3600 ≤ now) by omega)]

/-- Witness for C1 at a concrete record, secret and timestamp. -/
theorem jwt_round_trip_witness :
    ∃ p, verify_jwt_token
        (generate_jwt_token ⟨some "s1", some "a@b.c", some "Jane", none⟩
          ⟨"secret", 24⟩ 1000)
        ⟨"secret", 24⟩ 1000 = some p ∧
      p.email = some "a@b.c" ∧ p.name = some "Jane" ∧ p.user_id = some "s1" :=
  jwt_round_trip ⟨some "s1", some "a@b.c", some "Jane", none⟩ ⟨"secret", 24⟩ 1000
    (by norm_num)

/-- C2: `verify_jwt_token` is a total function into `Option` (never raises):
it returns the payload on a correctly signed, unexpired token, and `none` on
signature mismatch, malformed structure, expiry, and every decode error. -/
theorem verify_jwt_token_spec (t : JWTToken) (cfg : JWTConfig) (now : Int) :
    (∀ p s, t = .signed p s → s = cfg.jwt_secret_key → now < p.exp →
        verify_jwt_token t cfg now = some p) ∧
    (∀ p s, t = .signed p s → s ≠ cfg.jwt_secret_key →
        verify_jwt_token t cfg now = none) ∧
    (∀ p s, t = .signed p s → p.exp ≤ now →
        verify_jwt_token t cfg now = none) ∧
    (∀ r, t = .malformed r → verify_jwt_token t cfg now = none) ∧
    (∀ e, jwt_decode t cfg.jwt_secret_key now = .error e →
        verify_jwt_token t cfg now = none) := by
  refine ⟨?_, ?_, ?_, ?_, ?_⟩
  · intro p s ht hs hlt
    subst ht; subst hs
    rw [verify_jwt_token_signed, if_pos rfl, if_neg (by omega)]
  · intro p s ht hs
    subst ht
    rw [verify_jwt_token_signed, if_neg hs]
  · intro p s ht hle
    subst ht
    rw [verify_jwt_token_signed]
    by_cases hs : s = cfg.jwt_secret_key
    · rw [if_pos hs, if_pos hle]
    · rw [if_neg hs]
  · intro r ht
    subst ht
    rfl
  · intro e he
    unfold verify_jwt_token
    rw [he]
    cases e <;> rfl

/-- Witness for C2 at a concrete expired token. -/
theorem verify_jwt_token_spec_witness :
    verify_jwt_token (.signed ⟨none, none, none, none, 10, 0⟩ "sec")
      ⟨"sec", 24⟩ 99 = none :=
  (verify_jwt_token_spec (.signed ⟨none, none, none, none, 10, 0⟩ "sec")
    ⟨"sec", 24⟩ 99).2.2.1 ⟨none, none, none, none, 10, 0⟩ "sec" rfl (by norm_num)

/-- C6 counterexample: the implemented derivation preserves case, so it
differs from the spec's lower-casing derivation on `"Jane.Doe@company.com"`. -/
theorem email_to_kong_username_not_lowercased :
    email_to_kong_username "Jane.Doe@company.com" = "Jane_Doe" ∧
    email_to_kong_username_specLower "Jane.Doe@company.com" = "jane_doe" ∧
    email_to_kong_username "Jane.Doe@company.com" ≠
      email_to_kong_username_specLower "Jane.Doe@company.com" := by
  refine ⟨rfl, rfl, ?_⟩
  decide

/-- C6 (amended): the derivation maps every email to the local-part (before
the first `'@'`, case preserved) with every `'.'` and `'+'` replaced by
`'_'`; the spec's example maps to `"jane_doe_work"`. -/
theorem email_to_kong_username_amended :
    (∀ email, email_to_kong_username email = localPartUnderscored email) ∧
    email_to_kong_username "jane.doe+work@company.com" = "jane_doe_work" := by
  constructor
  · intro email
    unfold email_to_kong_username localPartUnderscored pyStrReplaceChar pyStrSplitHead
    show String.mk
        (((email.data.takeWhile fun c => c ≠ '@').map
            fun c => if c = '.' then '_' else c).map
          fun c => if c = '+' then '_' else c) = _
    rw [List.map_map]
    have hfun :
        ((fun c => if c = '+' then '_' else c) ∘
            fun c => if c = '.' then '_' else c) =
          fun c => if c = '.' ∨ c = '+' then '_' else c := by
      funext c
      by_cases h1 : c = '.'
      · subst h1; decide
      · by_cases h2 : c = '+'
        · subst h2; decide
        · simp [Function.comp, h1, h2]
    rw [hfun]
  · rfl

/-- C4: `_make_request` raises the typed error exactly for response status
400/404/409 (with the enriched message, the response status and the parsed
body) and for transport failures (with `status_code = 0`); every other
response status is returned unchanged as a `(body, status)` pair. -/
theorem make_request_spec (o : TransportOutcome) :
    (∀ status body, o = .httpResponse status body →
       (status ∈ [400, 404, 409] →
          make_request o = .error
            ⟨extract_error_message (parseRespBody body) status, status,
              parseRespBody body⟩) ∧
       (status ∉ [400, 404, 409] →
          make_request o = .ok (parseRespBody body, status))) ∧
    (∀ msg, o = .reqException msg →
       make_request o =
         .error ⟨"Request failed: " ++ msg, 0, [("original_error", msg)]⟩) ∧
    ((∃ e, make_request o = .error e) ↔
       (∃ s b, o = .httpResponse s b ∧ s ∈ [400, 404, 409]) ∨
       (∃ m, o = .reqException m)) := by
  cases o with
  | httpResponse s b =>
      refine ⟨?_, ?_, ?_⟩
      · intro status body h
        injection h with h1 h2
        subst h1; subst h2
        constructor
        · intro hmem; simp [make_request, hmem]
        · intro hmem; simp [make_request, hmem]
      · intro msg h
        exact TransportOutcome.noConfusion h
      · by_cases hmem : s ∈ [400, 404, 409]
        · constructor
          · intro _; exact Or.inl ⟨s, b, rfl, hmem⟩
          · intro _
            exact ⟨⟨extract_error_message (parseRespBody b) s, s,
              parseRespBody b⟩, by simp [make_request, hmem]⟩
        · constructor
          · rintro ⟨e, he⟩
            simp [make_request, hmem] at he
          · rintro (⟨s', b', hsb, hmem'⟩ | ⟨m, hm⟩)
            · injection hsb with h1 h2
              subst h1
              exact absurd hmem' hmem
            · exact TransportOutcome.noConfusion hm
  | reqException m =>
      refine ⟨?_, ?_, ?_⟩
      · intro status body h
        exact TransportOutcome.noConfusion h
      · intro msg h
        injection h with h1
        subst h1
        rfl
      · exact ⟨fun _ => Or.inr ⟨m, rfl⟩, fun _ => ⟨_, rfl⟩⟩

/-- Witness for C4 at a concrete 404 response. -/
theorem make_request_spec_witness :
    make_request (.httpResponse 404 (.jsonBody [])) =
      .error ⟨extract_error_message (parseRespBody (.jsonBody [])) 404, 404,
        parseRespBody (.jsonBody [])⟩ :=
  ((make_request_spec (.httpResponse 404 (.jsonBody []))).1 404 (.jsonBody [])
    rfl).1 (by decide)

/-- C7: `consumer_exists` returns `True` when the lookup yields status 200,
swallows a typed 404 into `False`, and re-raises every other typed error
unchanged. -/
theorem consumer_exists_spec (o : TransportOutcome) :
    (∀ b, o = .httpResponse 200 b → consumer_exists o = .ok true) ∧
    (∀ e, get_consumer o = .error e → e.status_code = 404 →
        consumer_exists o = .ok false) ∧
    (∀ e, get_consumer o = .error e → e.status_code ≠ 404 →
        consumer_exists o = .error e) := by
  refine ⟨?_, ?_, ?_⟩
  · rintro b rfl
    simp [consumer_exists, get_consumer, make_request]
  · intro e he h404
    simp [consumer_exists, he, h404]
  · intro e he h404
    simp [consumer_exists, he, h404]

/-- Witness for C7 at a concrete 200 lookup. -/
theorem consumer_exists_spec_witness :
    consumer_exists (.httpResponse 200 (.jsonBody [("id", "c_1")])) = .ok true :=
  (consumer_exists_spec (.httpResponse 200 (.jsonBody [("id", "c_1")]))).1
    (.jsonBody [("id", "c_1")]) rfl

/-- C10: when both `username` and `custom_id` are falsy, `create_consumer`
raises a plain `ValueError` locally — the issued-request log is empty, and
the raised error is not the typed `KongAdminAPIError`. -/
theorem create_consumer_requires_username_or_custom_id
    (username custom_id : Option String) (tags : Option (List String))
    (outcome : TransportOutcome)
    (hu : pyTruthyStr username = false) (hc : pyTruthyStr custom_id = false) :
    (create_consumer username custom_id tags outcome).1 =
        .error (.valueErr "Either username or custom_id must be provided") ∧
    (create_consumer username custom_id tags outcome).2 = [] ∧
    ∀ e : KongAdminAPIError,
      (create_consumer username custom_id tags outcome).1 ≠ .error (.kong e) := by
  have hcond : (!pyTruthyStr username && !pyTruthyStr custom_id) = true := by
    rw [hu, hc]; rfl
  refine ⟨?_, ?_, ?_⟩ <;> simp [create_consumer, hcond]

/-- Witness for C10 at `username = None`, `custom_id = ''`. -/
theorem create_consumer_requires_witness :
    (create_consumer none (some "") none (.reqException "refused")).1 =
      .error (.valueErr "Either username or custom_id must be provided") :=
  (create_consumer_requires_username_or_custom_id none (some "") none
    (.reqException "refused") rfl rfl).1

/-- The retry loop never performs more retries than its budget. -/
theorem retryCountAux_le (m : String) (r : Nat → Nat) :
    ∀ (fuel i : Nat), retryCountAux m r fuel i ≤ fuel := by
  intro fuel
  induction fuel with
  | zero => intro i; simp [retryCountAux]
  | succ n ih =>
      intro i
      unfold retryCountAux
      split
      · have := ih (i + 1); omega
      · omega

/-- Every attempt that was retried had a forcelist status (and an allowed
method). -/
theorem retryCountAux_forces (m : String) (r : Nat → Nat) :
    ∀ (fuel i j : Nat), j < retryCountAux m r fuel i →
      (methodRetryAllowed m && statusForcesRetry (r (i + j))) = true := by
  intro fuel
  induction fuel with
  | zero => intro i j h; simp [retryCountAux] at h
  | succ n ih =>
      intro i j h
      unfold retryCountAux at h
      by_cases hc : (methodRetryAllowed m && statusForcesRetry (r i)) = true
      · rw [if_pos hc] at h
        cases j with
        | zero => simpa using hc
        | succ j' =>
            have hj : j' < retryCountAux m r n (i + 1) := by omega
            have hstep := ih (i + 1) j' hj
            have harith : i + 1 + j' = i + (j' + 1) := by omega
            rwa [harith] at hstep
      · rw [if_neg hc] at h
        omega

/-- When the loop stops with budget remaining, the next status does not force
a retry. -/
theorem retryCountAux_stop (m : String) (r : Nat → Nat) :
    ∀ (fuel i : Nat), retryCountAux m r fuel i < fuel →
      (methodRetryAllowed m && statusForcesRetry (r (i + retryCountAux m r fuel i)))
        = false := by
  intro fuel
  induction fuel with
  | zero => intro i h; omega
  | succ n ih =>
      intro i h
      unfold retryCountAux at h ⊢
      by_cases hc : (methodRetryAllowed m && statusForcesRetry (r i)) = true
      · rw [if_pos hc] at h ⊢
        have hlt : retryCountAux m r n (i + 1) < n := by omega
        have hstep := ih (i + 1) hlt
        have harith : i + 1 + retryCountAux m r n (i + 1) =
            i + (retryCountAux m r n (i + 1) + 1) := by omega
        rwa [harith] at hstep
      · rw [if_neg hc] at h ⊢
        simp only [Bool.not_eq_true] at hc
        simpa using hc

/-- C9: for every request of an allowed method (the configured list includes
POST), the loop retries exactly while the status is 502/503/504, performs at
most 3 retries, sleeps 1, 2, 4 seconds before the successive retries, and
performs no retry when the first status is outside the forcelist. -/
theorem kong_retry_policy (method : String) (hm : method ∈ kongAllowedMethods)
    (responses : Nat → Nat) :
    retryCount method responses ≤ 3 ∧
    (∀ i, i < retryCount method responses →
        responses i ∈ kongStatusForcelist) ∧
    (retryCount method responses < 3 →
        responses (retryCount method responses) ∉ kongStatusForcelist) ∧
    (responses 0 ∉ kongStatusForcelist → retryCount method responses = 0) ∧
    retryDelays method responses =
      [1, 2, 4].take (retryCount method responses) ∧
    "POST" ∈ kongAllowedMethods := by
  have hma : methodRetryAllowed method = true := by
    unfold methodRetryAllowed
    exact decide_eq_true hm
  have hle : retryCount method responses ≤ 3 := retryCountAux_le method responses 3 0
  refine ⟨hle, ?_, ?_, ?_, ?_, by decide⟩
  · intro i hi
    have h := retryCountAux_forces method responses 3 0 i hi
    rw [hma, Bool.true_and, Nat.zero_add] at h
    unfold statusForcesRetry at h
    exact of_decide_eq_true h
  · intro hlt
    have h := retryCountAux_stop method responses 3 0 hlt
    rw [hma] at h
    rw [Nat.zero_add] at h
    simp only [Bool.true_and, statusForcesRetry, decide_eq_false_iff_not] at h
    exact h
  · intro h0
    have hc : statusForcesRetry (responses 0) = false := by
      simp [statusForcesRetry, h0]
    have haux : retryCountAux method responses 3 0 = 0 := by
      unfold retryCountAux
      simp [hc, hma]
    exact haux
  · unfold retryDelays
    have h4 : retryCount method responses = 0 ∨ retryCount method responses = 1 ∨
        retryCount method responses = 2 ∨ retryCount method responses = 3 := by
      omega
    rcases h4 with h | h | h | h <;> rw [h] <;> decide

/-- Witness for C9 at a POST that keeps getting 503. -/
theorem kong_retry_policy_witness :
    "POST" ∈ kongAllowedMethods ∧
    retryCount "POST" (fun _ => 503) ≤ 3 ∧
    retryDelays "POST" (fun _ => 503) = [1, 2, 4] := by
  have h := kong_retry_policy "POST" (by decide) (fun _ => 503)
  refine ⟨by decide, h.1, ?_⟩
  rw [h.2.2.2.2.1]
  decide

/-- The outer `except Exception` handler makes the workflow's result an
`Except.ok` for every environment. -/
theorem cogkc_result_ok {σ : Type} (env : KongEnv σ) (email : String) (s0 : σ) :
    ∃ o s1 tr, create_or_get_kong_consumer env email s0 = (Except.ok o, s1, tr) := by
  unfold create_or_get_kong_consumer
  rcases h : cogkcBody env email s0 with ⟨r, s1, tr⟩
  cases r with
  | ok o => exact ⟨o, s1, tr, rfl⟩
  | error e => exact ⟨none, s1, tr, rfl⟩

/-- A 200 lookup short-circuits the workflow: the existing id is returned and
the lookup is the only client call. -/
theorem cogkc_found {σ : Type} (env : KongEnv σ) (email : String) (s0 s1 : σ)
    (body : ConsumerBody) (cid : String)
    (hget : env.get_consumer email s0 = (.ok (body, 200), s1))
    (hid : body.id = some cid) :
    create_or_get_kong_consumer env email s0 =
      (.ok (some cid), s1, [.getC email]) := by
  unfold create_or_get_kong_consumer cogkcBody
  rw [hget]
  simp [hid]

/-- The callback tail always evaluates to the same successful response,
whatever the gateway environment did. -/
theorem callback_after_identity_fst {σ : Type} (env : KongEnv σ) (s : σ)
    (ui : UserInfo) (cfg : JWTConfig) (env_name : String) (now : Int) :
    (callback_after_identity env s ui cfg env_name now).1 =
      .ok { cookie_name := "auth_token"
            cookie_token :=
              generate_jwt_token ⟨some ui.id, some ui.email, some ui.name, ui.picture⟩
                cfg now
            httponly := true
            secure := env_name = "production"
            samesite := "Lax"
            max_age := 24 * 60 * 60
            redirect_to := "/dashboard"
            status := 302 } := by
  unfold callback_after_identity
  obtain ⟨o, s1, tr, h⟩ := cogkc_result_ok env ui.email s
  rw [h]

/-- C3: the provisioning workflow never raises to its caller — its result is
`Except.ok` for EVERY gateway environment (typed errors, unexpected
exceptions, any statuses) — and the OAuth callback's login outcome (session
cookie token, redirect target) is the same under any two environments. -/
theorem provisioning_never_raises :
    (∀ (σ : Type) (env : KongEnv σ) (email : String) (s0 : σ),
       ∃ o, (create_or_get_kong_consumer env email s0).1 = Except.ok o) ∧
    (∀ (σ σ2 : Type) (env : KongEnv σ) (env2 : KongEnv σ2) (s : σ) (s2 : σ2)
       (ui : UserInfo) (cfg : JWTConfig) (env_name : String) (now : Int),
       (callback_after_identity env s ui cfg env_name now).1 =
         (callback_after_identity env2 s2 ui cfg env_name now).1 ∧
       ∃ resp, (callback_after_identity env s ui cfg env_name now).1 = .ok resp ∧
         resp.redirect_to = "/dashboard" ∧ resp.cookie_name = "auth_token" ∧
         resp.status = 302) := by
  constructor
  · intro σ env email s0
    obtain ⟨o, s1, tr, h⟩ := cogkc_result_ok env email s0
    exact ⟨o, by rw [h]⟩
  · intro σ σ2 env env2 s s2 ui cfg env_name now
    refine ⟨?_, ?_⟩
    · rw [callback_after_identity_fst, callback_after_identity_fst]
    · exact ⟨_, callback_after_identity_fst env s ui cfg env_name now, rfl, rfl, rfl⟩

/-- C5: a 200 lookup returns the existing consumer's id with no
`createConsumer` and no `createConsumerKey` call, and two consecutive runs
for the same user against the spec-modelled gateway perform at most one
`createConsumer` attempt in total. -/
theorem kong_consumer_short_circuit :
    (∀ (σ : Type) (env : KongEnv σ) (email : String) (s0 s1 : σ)
       (body : ConsumerBody) (cid : String),
       env.get_consumer email s0 = (.ok (body, 200), s1) →
       body.id = some cid →
       create_or_get_kong_consumer env email s0 =
         (.ok (some cid), s1, [.getC email])) ∧
    (∀ (s0 : GState) (email : String),
       countCreate (create_or_get_kong_consumer kongGateway email s0).2.2 +
         countCreate
           (create_or_get_kong_consumer kongGateway email
             (create_or_get_kong_consumer kongGateway email s0).2.1).2.2 ≤ 1) := by
  constructor
  · intro σ env email s0 s1 body cid hget hid
    exact cogkc_found env email s0 s1 body cid hget hid
  · intro s0 email
    rcases hlook : s0.consumers.lookup email with _ | cid
    · -- consumer absent: the first run creates it, the second short-circuits
      have hrun1 : create_or_get_kong_consumer kongGateway email s0 =
          (.ok (some ("c_" ++ toString s0.nextId)),
           ⟨(email, "c_" ++ toString s0.nextId) :: s0.consumers, s0.nextId + 1⟩,
           [.getC email,
            .createC (some email) (some (email_to_kong_username email)) (some ["free"]),
            .createKey email]) := by
        unfold create_or_get_kong_consumer cogkcBody cogkcInner
        simp [kongGateway, gwGet, gwCreate, gwCreateKey, hlook, List.lookup]
      have hrun2 : create_or_get_kong_consumer kongGateway email
          ⟨(email, "c_" ++ toString s0.nextId) :: s0.consumers, s0.nextId + 1⟩ =
          (.ok (some ("c_" ++ toString s0.nextId)),
           ⟨(email, "c_" ++ toString s0.nextId) :: s0.consumers, s0.nextId + 1⟩,
           [.getC email]) := by
        apply cogkc_found _ _ _ _ ⟨some ("c_" ++ toString s0.nextId)⟩
        · simp [kongGateway, gwGet, List.lookup]
        · rfl
      rw [hrun1]
      simp only
      rw [hrun2]
      simp [countCreate]
    · -- consumer present: both runs short-circuit
      have hrun : create_or_get_kong_consumer kongGateway email s0 =
          (.ok (some cid), s0, [.getC email]) := by
        apply cogkc_found _ _ _ _ ⟨some cid⟩
        · simp [kongGateway, gwGet, hlook]
        · rfl
      rw [hrun]
      simp only
      rw [hrun]
      simp [countCreate]

/-- Witness for C5's short-circuit at a concrete environment that answers
200. -/
theorem kong_consumer_short_circuit_witness :
    create_or_get_kong_consumer constFoundEnv "a@b.c" () =
      (.ok (some "c_1"), (), [.getC "a@b.c"]) :=
  kong_consumer_short_circuit.1 Unit constFoundEnv "a@b.c" () () ⟨some "c_1"⟩ "c_1"
    rfl rfl

/-- C8: with a missing or unverifiable token the header-guard answers 401
with a JSON body holding `error` and `message` and never invokes the wrapped
handler (its result does not even depend on the handler), the cookie-guard
answers a 302 redirect to the login route; when verification succeeds each
guard invokes the handler with the decoded claims as its first explicit
argument. -/
theorem access_gate_spec {α : Type} (f : JWTPayload → α) (req : WebRequest)
    (cfg : JWTConfig) (now : Int) :
    (get_user_from_header req cfg now = none →
       login_required_api f req cfg now =
         .jsonResponse 401
           [("error", "Authentication required"),
            ("message", "Please provide a valid Bearer token")] ∧
       (∀ u v, login_required_api f req cfg now ≠ .handled u v) ∧
       (∀ g : JWTPayload → α,
          login_required_api f req cfg now = login_required_api g req cfg now)) ∧
    (∀ u, get_user_from_header req cfg now = some u →
       login_required_api f req cfg now = .handled u (f u)) ∧
    (get_user_from_cookie req cfg now = none →
       login_required_cookie f req cfg now = .redirect 302 "/login" ∧
       (∀ u v, login_required_cookie f req cfg now ≠ .handled u v)) ∧
    (∀ u, get_user_from_cookie req cfg now = some u →
       login_required_cookie f req cfg now = .handled u (f u)) ∧
    (req.authorization = none → get_user_from_header req cfg now = none) ∧
    (req.cookie_auth_token = none → get_user_from_cookie req cfg now = none) ∧
    (∀ p s, req.authorization = some (.bearer (.signed p s)) →
       (s = cfg.jwt_secret_key → now < p.exp →
          get_user_from_header req cfg now = some p) ∧
       (s ≠ cfg.jwt_secret_key → get_user_from_header req cfg now = none) ∧
       (p.exp ≤ now → get_user_from_header req cfg now = none)) := by
  refine ⟨?_, ?_, ?_, ?_, ?_, ?_, ?_⟩
  · intro h
    refine ⟨?_, ?_, ?_⟩ <;> simp [login_required_api, h]
  · intro u h
    simp [login_required_api, h]
  · intro h
    refine ⟨?_, ?_⟩ <;> simp [login_required_cookie, h]
  · intro u h
    simp [login_required_cookie, h]
  · intro h
    simp [get_user_from_header, h]
  · intro h
    simp [get_user_from_cookie, h]
  · intro p s h
    refine ⟨?_, ?_, ?_⟩
    · intro hs hlt
      simp only [get_user_from_header, h]
      rw [verify_jwt_token_signed, if_pos hs, if_neg (by omega)]
    · intro hs
      simp only [get_user_from_header, h]
      rw [verify_jwt_token_signed, if_neg hs]
    · intro hle
      simp only [get_user_from_header, h]
      rw [verify_jwt_token_signed]
      by_cases hs : s = cfg.jwt_secret_key
      · rw [if_pos hs, if_pos hle]
      · rw [if_neg hs]

/-- Witness for C8 at a request carrying neither cookie nor header. -/
theorem access_gate_spec_witness :
    login_required_api (fun _ => (0 : Nat)) ⟨none, none⟩ ⟨"sec", 24⟩ 0 =
      .jsonResponse 401
        [("error", "Authentication required"),
         ("message", "Please provide a valid Bearer token")] ∧
    login_required_cookie (fun _ => (0 : Nat)) ⟨none, none⟩ ⟨"sec", 24⟩ 0 =
      .redirect 302 "/login" := by
  have h := access_gate_spec (fun _ => (0 : Nat)) ⟨none, none⟩ ⟨"sec", 24⟩ 0
  exact ⟨(h.1 rfl).1, (h.2.2.1 rfl).1⟩

end SbomSaas
